import Mathlib

/-!
Shallow embedding of the anomaly-detection and auto-blocking engine of the
`ip_tracking` Django application (`ip_tracking/tasks.py` and
`ip_tracking/models.py`), together with proofs of the specification claims.

Timestamps are modelled as integer seconds.  Django querysets over the three
stores (RequestLog, SuspiciousIP, BlockedIP) are modelled as Lean lists, and
each task becomes a pure function from the store state to the new store state
plus its return value.  `timestamp__range=(a, b)` is inclusive at both ends,
`__gt` / `__lt` are strict, matching the ORM semantics used in the source.
-/

set_option maxRecDepth 40000

namespace IpTracking

/-- Model of the `RequestLog` Django model: one logged request. -/
structure RequestLog where
  ip_address : String
  timestamp : Int
  path : String
  country : Option String
  city : Option String
deriving DecidableEq, Repr

/-- Model of the `SuspiciousIP` Django model: one suspicion flag. -/
structure SuspiciousIP where
  ip_address : String
  reason : String
  detected_at : Int
  request_count : Nat
  is_resolved : Bool
  auto_blocked : Bool
deriving DecidableEq, Repr

/-- Model of the `BlockedIP` Django model: one block-list entry. -/
structure BlockedIP where
  ip_address : String
  created_at : Int
  reason : Option String
deriving DecidableEq, Repr

/-- The three persistent stores the tasks read and write. -/
structure State where
  requestLogs : List RequestLog
  suspicious : List SuspiciousIP
  blocked : List BlockedIP
deriving DecidableEq, Repr

/-- Substring test, modelling Django's `reason__contains` lookup. -/
def strContains (s pat : String) : Bool :=
  s.data.tails.any (fun t => pat.data.isPrefixOf t)

/-- Prefix test on strings (used to classify a stored reason's category:
every reason the source writes begins with its category's marker text). -/
def strStartsWith (s pat : String) : Bool :=
  pat.data.isPrefixOf s.data

/-- The four detection categories of the spec's SuspicionFlag data model. -/
inductive Category where
  | highVolume
  | sensitivePath
  | burstPattern
  | geoAnomaly
deriving DecidableEq, Repr

/-- The marker text each detector passes to `reason__contains` when it
deduplicates, and with which each detector's reason string begins. -/
def marker : Category → String
  | .highVolume => "High volume"
  | .sensitivePath => "Sensitive path access"
  | .burstPattern => "Burst pattern"
  | .geoAnomaly => "Geographic anomaly"

/-- `timestamp__range=(startT, endT)` (inclusive on both ends). -/
def inWindow (startT endT : Int) (r : RequestLog) : Bool :=
  decide (startT ≤ r.timestamp) && decide (r.timestamp ≤ endT)

/-- `RequestLog.objects.filter(timestamp__range=(startT, endT))`. -/
def windowLogs (logs : List RequestLog) (startT endT : Int) : List RequestLog :=
  logs.filter (inWindow startT endT)

/-- Number of in-window events of one IP (the `Count('id')` annotation). -/
def ipCount (logs : List RequestLog) (startT endT : Int) (ip : String) : Nat :=
  ((windowLogs logs startT endT).filter (fun r => r.ip_address == ip)).length

/-- The distinct IPs appearing in the window (the `values('ip_address')` group keys). -/
def windowIps (logs : List RequestLog) (startT endT : Int) : List String :=
  ((windowLogs logs startT endT).map (fun r => r.ip_address)).dedup

/-- Models `SuspiciousIP.objects.filter(ip_address=ip, reason__contains=m,
detected_at__gt=now - 6h).exists()` — the Deduplicator's cool-down check. -/
def suspExistsRecent (susp : List SuspiciousIP) (ip m : String) (now : Int) : Bool :=
  susp.any (fun f =>
    f.ip_address == ip && strContains f.reason m && decide (now - 21600 < f.detected_at))

/-- The skip-or-create loop shared by all four detectors: for each candidate,
skip it when a flag whose reason contains the marker `m` was detected for the
same IP within the last six hours, otherwise create (`mk c`) a new flag, which
subsequent iterations of the same run then see in the store.  Returns the list
of flags the loop created, in creation order. -/
def detLoopFlags {α : Type} (ipOf : α → String) (mk : α → SuspiciousIP) (m : String)
    (now : Int) : List α → List SuspiciousIP → List SuspiciousIP
  | [], _ => []
  | c :: cs, susp =>
    if suspExistsRecent susp (ipOf c) m now then detLoopFlags ipOf mk m now cs susp
    else mk c :: detLoopFlags ipOf mk m now cs (susp ++ [mk c])

/-- Candidates of `detect_high_volume_requests`: in-window IPs with
`request_count > 100`, paired with their exact count. -/
def hvCandidates (logs : List RequestLog) (startT endT : Int) : List (String × Nat) :=
  (windowIps logs startT endT).filterMap (fun ip =>
    if 100 < ipCount logs startT endT ip then some (ip, ipCount logs startT endT ip) else none)

/-- Reason string of a High-Volume flag. -/
def hvReason (c : Nat) : String :=
  "High volume requests: " ++ toString c ++ " requests in 1 hour (threshold: 100)"

/-- The `SuspiciousIP.objects.create(...)` call of the High-Volume detector. -/
def mkHvFlag (now : Int) (p : String × Nat) : SuspiciousIP :=
  ⟨p.1, hvReason p.2, now, p.2, false, false⟩

/-- Flags created by one run of the High-Volume detector. -/
def hvNewFlags (st : State) (startT endT now : Int) : List SuspiciousIP :=
  detLoopFlags Prod.fst (mkHvFlag now) "High volume" now
    (hvCandidates st.requestLogs startT endT) st.suspicious

/-- `detect_high_volume_requests(start_time, end_time)`: returns the updated
state and the list of flagged IPs. -/
def detect_high_volume_requests (st : State) (startT endT now : Int) : State × List String :=
  ({ st with suspicious := st.suspicious ++ hvNewFlags st startT endT now },
    (hvNewFlags st startT endT now).map (fun f => f.ip_address))

/-- The fixed list of sensitive paths. -/
def sensitivePathList : List String :=
  ["/admin", "/login", "/api/sensitive", "/password-reset", "/api/login"]

/-- In-window events restricted to the sensitive paths. -/
def sensLogs (logs : List RequestLog) (startT endT : Int) : List RequestLog :=
  (windowLogs logs startT endT).filter (fun r => sensitivePathList.contains r.path)

/-- Access count of one (ip, path) group among the sensitive-path events. -/
def sensCount (logs : List RequestLog) (startT endT : Int) (ip path : String) : Nat :=
  ((sensLogs logs startT endT).filter (fun r => r.ip_address == ip && r.path == path)).length

/-- Candidates of `detect_sensitive_path_access`: (ip, path) groups with
`access_count > 5`, with their exact count. -/
def sensCandidates (logs : List RequestLog) (startT endT : Int) : List (String × String × Nat) :=
  (((sensLogs logs startT endT).map (fun r => (r.ip_address, r.path))).dedup).filterMap
    (fun p =>
      if 5 < sensCount logs startT endT p.1 p.2 then
        some (p.1, p.2, sensCount logs startT endT p.1 p.2)
      else none)

/-- Reason string of a Sensitive-Path flag. -/
def sensReason (c : Nat) (path : String) : String :=
  "Sensitive path access: " ++ toString c ++ " attempts to " ++ path

/-- The `SuspiciousIP.objects.create(...)` call of the Sensitive-Path detector. -/
def mkSensFlag (now : Int) (t : String × String × Nat) : SuspiciousIP :=
  ⟨t.1, sensReason t.2.2 t.2.1, now, t.2.2, false, false⟩

/-- Flags created by one run of the Sensitive-Path detector. -/
def sensNewFlags (st : State) (startT endT now : Int) : List SuspiciousIP :=
  detLoopFlags (fun t => t.1) (mkSensFlag now) "Sensitive path access" now
    (sensCandidates st.requestLogs startT endT) st.suspicious

/-- `detect_sensitive_path_access(start_time, end_time)`. -/
def detect_sensitive_path_access (st : State) (startT endT now : Int) : State × List String :=
  ({ st with suspicious := st.suspicious ++ sensNewFlags st startT endT now },
    (sensNewFlags st startT endT now).map (fun f => f.ip_address))

/-- One IP's in-window events (`filter(ip_address=..., timestamp__range=...)`). -/
def ipWindowLogs (logs : List RequestLog) (startT endT : Int) (ip : String) : List RequestLog :=
  (windowLogs logs startT endT).filter (fun r => r.ip_address == ip)

/-- Timestamp of the earliest event of a list (`order_by('timestamp').first()`). -/
def firstTs : List RequestLog → Int
  | [] => 0
  | r :: rs => rs.foldl (fun m x => min m x.timestamp) r.timestamp

/-- Timestamp of the latest event of a list (`order_by('timestamp').last()`). -/
def lastTs : List RequestLog → Int
  | [] => 0
  | r :: rs => rs.foldl (fun m x => max m x.timestamp) r.timestamp

/-- `(last_request - first_request).total_seconds()` for one IP's in-window events. -/
def burstDuration (logs : List RequestLog) (startT endT : Int) (ip : String) : Int :=
  lastTs (ipWindowLogs logs startT endT ip) - firstTs (ipWindowLogs logs startT endT ip)

/-- Candidates of `detect_pattern_anomalies`: IPs selected with count > 50,
kept when the recount is not below 50 and the first-to-last span is under
300 seconds. -/
def burstCandidates (logs : List RequestLog) (startT endT : Int) : List String :=
  (windowIps logs startT endT).filter (fun ip =>
    decide (50 < ipCount logs startT endT ip) &&
      (if (ipWindowLogs logs startT endT ip).length < 50 then false
       else decide (burstDuration logs startT endT ip < 300)))

/-- Reason string of a Burst-Pattern flag. -/
def burstReason (c : Nat) (d : Int) : String :=
  "Burst pattern: " ++ toString c ++ " requests in " ++ toString d ++ " seconds"

/-- The `SuspiciousIP.objects.create(...)` call of the Burst-Pattern detector. -/
def mkBurstFlag (logs : List RequestLog) (startT endT now : Int) (ip : String) : SuspiciousIP :=
  ⟨ip, burstReason (ipWindowLogs logs startT endT ip).length (burstDuration logs startT endT ip),
    now, (ipWindowLogs logs startT endT ip).length, false, false⟩

/-- Flags created by one run of the Burst-Pattern detector. -/
def burstNewFlags (st : State) (startT endT now : Int) : List SuspiciousIP :=
  detLoopFlags id (mkBurstFlag st.requestLogs startT endT now) "Burst pattern" now
    (burstCandidates st.requestLogs startT endT) st.suspicious

/-- `detect_pattern_anomalies(start_time, end_time)`. -/
def detect_pattern_anomalies (st : State) (startT endT now : Int) : State × List String :=
  ({ st with suspicious := st.suspicious ++ burstNewFlags st startT endT now },
    (burstNewFlags st startT endT now).map (fun f => f.ip_address))

/-- The allow-list of common countries excluded by the Geo-Anomaly detector. -/
def commonCountries : List String :=
  ["US", "CA", "GB", "DE", "FR", "Local", "Unknown"]

/-- In-window events with a non-null country outside the allow-list. -/
def geoLogs (logs : List RequestLog) (startT endT : Int) : List RequestLog :=
  (windowLogs logs startT endT).filter (fun r =>
    match r.country with
    | some c => !(commonCountries.contains c)
    | none => false)

/-- Request count of one (ip, country) group among the geo-filtered events. -/
def geoCount (logs : List RequestLog) (startT endT : Int) (ip c : String) : Nat :=
  ((geoLogs logs startT endT).filter
    (fun r => r.ip_address == ip && r.country == some c)).length

/-- Candidates of `detect_geographic_anomalies`: (ip, country) groups with
`request_count > 20`, with their exact count. -/
def geoCandidates (logs : List RequestLog) (startT endT : Int) : List (String × String × Nat) :=
  (((geoLogs logs startT endT).filterMap
      (fun r => r.country.map (fun c => (r.ip_address, c)))).dedup).filterMap
    (fun p =>
      if 20 < geoCount logs startT endT p.1 p.2 then
        some (p.1, p.2, geoCount logs startT endT p.1 p.2)
      else none)

/-- Reason string of a Geo-Anomaly flag; note that it embeds the raw country. -/
def geoReason (c : Nat) (country : String) : String :=
  "Geographic anomaly: " ++ toString c ++ " requests from uncommon country (" ++ country ++ ")"

/-- The `SuspiciousIP.objects.create(...)` call of the Geo-Anomaly detector. -/
def mkGeoFlag (now : Int) (t : String × String × Nat) : SuspiciousIP :=
  ⟨t.1, geoReason t.2.2 t.2.1, now, t.2.2, false, false⟩

/-- Flags created by one run of the Geo-Anomaly detector. -/
def geoNewFlags (st : State) (startT endT now : Int) : List SuspiciousIP :=
  detLoopFlags (fun t => t.1) (mkGeoFlag now) "Geographic anomaly" now
    (geoCandidates st.requestLogs startT endT) st.suspicious

/-- `detect_geographic_anomalies(start_time, end_time)`. -/
def detect_geographic_anomalies (st : State) (startT endT now : Int) : State × List String :=
  ({ st with suspicious := st.suspicious ++ geoNewFlags st startT endT now },
    (geoNewFlags st startT endT now).map (fun f => f.ip_address))

/-- The reason recorded on every auto-created block entry. -/
def autoBlockReasonText : String :=
  "Auto-blocked: Multiple suspicious activities detected"

/-- The `BlockedIP.objects.create(...)` call of the Escalator. -/
def autoEntry (ip : String) (now : Int) : BlockedIP :=
  ⟨ip, now, some autoBlockReasonText⟩

/-- `SuspiciousIP.objects.filter(detected_at__gt=now - 24h, is_resolved=False)`. -/
def recentUnresolved (susp : List SuspiciousIP) (now : Int) : List SuspiciousIP :=
  susp.filter (fun f => decide (now - 86400 < f.detected_at) && !f.is_resolved)

/-- The `flag_count` annotation: unresolved flags of one IP in the last 24 h. -/
def flagCount (susp : List SuspiciousIP) (now : Int) (ip : String) : Nat :=
  ((recentUnresolved susp now).filter (fun f => f.ip_address == ip)).length

/-- The IPs the Escalator iterates over: distinct IPs with `flag_count >= 3`. -/
def qualifyingIps (susp : List SuspiciousIP) (now : Int) : List String :=
  (((recentUnresolved susp now).map (fun f => f.ip_address)).dedup).filter
    (fun ip => decide (3 ≤ flagCount susp now ip))

/-- `BlockedIP.objects.filter(ip_address=ip).exists()`. -/
def blockedHas (st : State) (ip : String) : Bool :=
  st.blocked.any (fun b => b.ip_address == ip)

/-- The per-flag effect of
`SuspiciousIP.objects.filter(ip_address=ip, is_resolved=False).update(auto_blocked=True)`. -/
def markAutoBlocked (ip : String) (f : SuspiciousIP) : SuspiciousIP :=
  if f.ip_address == ip && !f.is_resolved then { f with auto_blocked := true } else f

/-- The Escalator's loop body: skip IPs already in the block list, otherwise
create the block entry and mark the IP's unresolved flags as auto-blocked. -/
def escalateLoop (now : Int) : List String → State → Nat → State × Nat
  | [], st, n => (st, n)
  | ip :: rest, st, n =>
    if blockedHas st ip then escalateLoop now rest st n
    else
      escalateLoop now rest
        { st with
          blocked := st.blocked ++ [autoEntry ip now],
          suspicious := st.suspicious.map (markAutoBlocked ip) }
        (n + 1)

/-- `auto_block_suspicious_ips()`: returns the new state and `auto_blocked_count`. -/
def auto_block_suspicious_ips (now : Int) (st : State) : State × Nat :=
  escalateLoop now (qualifyingIps st.suspicious now) st 0

/-- The state after one Escalator run. -/
def autoBlockState (now : Int) (st : State) : State :=
  (auto_block_suspicious_ips now st).1

/-- The predicate the Retention Sweeper deletes by:
`is_resolved=True, detected_at__lt=now - 30 days`. -/
def isOldResolved (now : Int) (f : SuspiciousIP) : Bool :=
  f.is_resolved && decide (f.detected_at < now - 2592000)

/-- `cleanup_old_suspicious_records()`: returns the new state and the count of
deleted records. -/
def cleanup_old_suspicious_records (now : Int) (st : State) : State × Nat :=
  ({ st with suspicious := st.suspicious.filter (fun f => !isOldResolved now f) },
    (st.suspicious.filter (isOldResolved now)).length)

/-- The statistics dictionary returned by `generate_security_report()`. -/
structure SecurityStats where
  total_requests_24h : Nat
  unique_ips_24h : Nat
  suspicious_flags_24h : Nat
  blocked_ips_total : Nat
  auto_blocked_24h : Nat
deriving DecidableEq, Repr

/-- `generate_security_report()`: a read-only task returning five statistics. -/
def generate_security_report (now : Int) (st : State) : State × SecurityStats :=
  (st,
    { total_requests_24h :=
        (st.requestLogs.filter (fun r => decide (now - 86400 < r.timestamp))).length
      unique_ips_24h :=
        (((st.requestLogs.filter (fun r => decide (now - 86400 < r.timestamp))).map
          (fun r => r.ip_address)).dedup).length
      suspicious_flags_24h :=
        (st.suspicious.filter (fun f => decide (now - 86400 < f.detected_at))).length
      blocked_ips_total := st.blocked.length
      auto_blocked_24h :=
        (st.suspicious.filter
          (fun f => decide (now - 86400 < f.detected_at) && f.auto_blocked)).length })

/-- The summary dictionary returned by `detect_anomalies()`. -/
structure DetectionSummary where
  high_volume_ips : Nat
  sensitive_path_ips : Nat
  pattern_anomaly_ips : Nat
  geo_anomaly_ips : Nat
  total_flagged : Nat
deriving DecidableEq, Repr

/-- State after the High-Volume detector inside `detect_anomalies`. -/
def stage1 (now : Int) (st : State) : State :=
  (detect_high_volume_requests st (now - 3600) now now).1

/-- State after the Sensitive-Path detector inside `detect_anomalies`. -/
def stage2 (now : Int) (st : State) : State :=
  (detect_sensitive_path_access (stage1 now st) (now - 3600) now now).1

/-- State after the Burst-Pattern detector inside `detect_anomalies`. -/
def stage3 (now : Int) (st : State) : State :=
  (detect_pattern_anomalies (stage2 now st) (now - 3600) now now).1

/-- State after the Geo-Anomaly detector inside `detect_anomalies`. -/
def stage4 (now : Int) (st : State) : State :=
  (detect_geographic_anomalies (stage3 now st) (now - 3600) now now).1

/-- `detect_anomalies()`: runs the four detectors over the trailing hour, then
the Escalator, and returns the summary of flag counts. -/
def detect_anomalies (now : Int) (st : State) : State × DetectionSummary :=
  ((auto_block_suspicious_ips now (stage4 now st)).1,
    { high_volume_ips := (detect_high_volume_requests st (now - 3600) now now).2.length
      sensitive_path_ips :=
        (detect_sensitive_path_access (stage1 now st) (now - 3600) now now).2.length
      pattern_anomaly_ips :=
        (detect_pattern_anomalies (stage2 now st) (now - 3600) now now).2.length
      geo_anomaly_ips :=
        (detect_geographic_anomalies (stage3 now st) (now - 3600) now now).2.length
      total_flagged :=
        (detect_high_volume_requests st (now - 3600) now now).2.length +
          (detect_sensitive_path_access (stage1 now st) (now - 3600) now now).2.length +
          (detect_pattern_anomalies (stage2 now st) (now - 3600) now now).2.length +
          (detect_geographic_anomalies (stage3 now st) (now - 3600) now now).2.length })

/-- A sequence of detection runs at the given clock times. -/
def runSeq (ts : List Int) (st : State) : State :=
  ts.foldl (fun s t => (detect_anomalies t s).1) st

/-- Block-list entries recorded for one IP. -/
def entriesFor (st : State) (ip : String) : List BlockedIP :=
  st.blocked.filter (fun b => b.ip_address == ip)

/-- Suspicion flags recorded for one IP. -/
def flagsFor (st : State) (ip : String) : List SuspiciousIP :=
  st.suspicious.filter (fun f => f.ip_address == ip)

/-- The fields of a flag that the Escalator's grouping reads
(ip, is_resolved, detected_at). -/
def flagKey (f : SuspiciousIP) : String × Bool × Int :=
  (f.ip_address, f.is_resolved, f.detected_at)

/-- Two same-IP flags carrying the same category marker as a reason prefix are
at least six hours apart: the cool-down invariant. -/
def FlagRel (f g : SuspiciousIP) : Prop :=
  f.ip_address = g.ip_address → ∀ c : Category,
    strStartsWith f.reason (marker c) = true → strStartsWith g.reason (marker c) = true →
    21600 ≤ f.detected_at - g.detected_at ∨ 21600 ≤ g.detected_at - f.detected_at

/-- The cool-down invariant over a whole flag store. -/
def FlagInv (susp : List SuspiciousIP) : Prop :=
  susp.Pairwise FlagRel

/-- First character of each category's marker (the four are pairwise distinct). -/
def markerHead : Category → Char
  | .highVolume => 'H'
  | .sensitivePath => 'S'
  | .burstPattern => 'B'
  | .geoAnomaly => 'G'

/-- A stored Geo-Anomaly flag whose country field happens to contain the
High-Volume marker text — a store reachable when the geolocation input is
adversarial or drifts. -/
def cexGeoFlag : SuspiciousIP :=
  ⟨"1.2.3.4", "Geographic anomaly: 25 requests from uncommon country (High volume)", 0, 25,
    false, false⟩

/-- 101 in-window requests from one IP. -/
def cexLogs : List RequestLog := List.replicate 101 ⟨"1.2.3.4", 50, "/x", none, none⟩

/-- Store holding `cexLogs` and the pathological Geo-Anomaly flag. -/
def cexState : State := ⟨cexLogs, [cexGeoFlag], []⟩

/-- Same shape as `cexGeoFlag` for a different IP and clock. -/
def c7GeoFlag : SuspiciousIP :=
  ⟨"203.0.113.7", "Geographic anomaly: 30 requests from uncommon country (High volume)", 100, 30,
    false, false⟩

/-- 101 in-window requests from 203.0.113.7. -/
def c7Logs : List RequestLog := List.replicate 101 ⟨"203.0.113.7", 150, "/home", none, none⟩

/-- Store exhibiting the cross-category suppression of the substring dedup. -/
def c7State : State := ⟨c7Logs, [c7GeoFlag], []⟩

/-- One IP accessing two distinct sensitive paths six times each. -/
def twoPathLogs : List RequestLog :=
  List.replicate 6 ⟨"10.0.0.1", 10, "/admin", none, none⟩ ++
    List.replicate 6 ⟨"10.0.0.1", 10, "/login", none, none⟩

/-- Store for the two-sensitive-paths scenario. -/
def twoPathState : State := ⟨twoPathLogs, [], []⟩

/-- Three unresolved flags of distinct categories for one IP within 24 h. -/
def escFlags : List SuspiciousIP :=
  [⟨"9.9.9.9", "High volume requests: 150 requests in 1 hour (threshold: 100)", 1000, 150,
      false, false⟩,
   ⟨"9.9.9.9", "Sensitive path access: 9 attempts to /admin", 1100, 9, false, false⟩,
   ⟨"9.9.9.9", "Geographic anomaly: 30 requests from uncommon country (CN)", 1200, 30,
      false, false⟩]

/-- Store with three qualifying flags and an empty block list. -/
def escState : State := ⟨[], escFlags, []⟩

/-- Same flags, but the IP is already blocked manually. -/
def escBlockedState : State := ⟨[], escFlags, [⟨"9.9.9.9", 500, some "manual"⟩]⟩

/-- 51 requests of one IP at the same instant: a burst. -/
def burstLogs : List RequestLog := List.replicate 51 ⟨"8.8.8.8", 10, "/x", none, none⟩

/-- Store for the burst scenario. -/
def burstState : State := ⟨burstLogs, [], []⟩

/-- One resolved 34-day-old flag and one unresolved flag of the same age. -/
def sweepFlags : List SuspiciousIP :=
  [⟨"1.1.1.1", "High volume requests: 120 requests in 1 hour (threshold: 100)", 0, 120,
      true, false⟩,
   ⟨"2.2.2.2", "Burst pattern: 60 requests in 100 seconds", 0, 60, false, false⟩]

/-- Store for the retention-sweep scenario. -/
def sweepState : State := ⟨[], sweepFlags, []⟩

/-- The unresolved flag of `sweepFlags`. -/
def sweepKeptFlag : SuspiciousIP :=
  ⟨"2.2.2.2", "Burst pattern: 60 requests in 100 seconds", 0, 60, false, false⟩

/-- `cexLogs` with its IP already present in the block list. -/
def c8State : State := ⟨cexLogs, [], [⟨"1.2.3.4", 5, some "manual"⟩]⟩

theorem strStartsWith_iff {s p : String} : strStartsWith s p = true ↔ p.data <+: s.data := by
  simp [strStartsWith, List.isPrefixOf_iff_prefix]

theorem strContains_iff {s p : String} : strContains s p = true ↔ p.data <:+: s.data := by
  simp only [strContains, List.any_eq_true, List.isPrefixOf_iff_prefix]
  constructor
  · rintro ⟨t, ht, hp⟩
    exact List.infix_iff_prefix_suffix.mpr ⟨t, hp, (List.mem_tails _ _).mp ht⟩
  · intro h
    rcases List.infix_iff_prefix_suffix.mp h with ⟨t, hp, hs⟩
    exact ⟨t, (List.mem_tails _ _).mpr hs, hp⟩

theorem strContains_of_strStartsWith {s p : String} (h : strStartsWith s p = true) :
    strContains s p = true :=
  strContains_iff.mpr (strStartsWith_iff.mp h).isInfix

theorem prefix_append_ext {p q : List Char} (r : List Char) (h : p <+: q) : p <+: q ++ r :=
  h.trans (List.prefix_append q r)

theorem marker_data_head (c : Category) : (marker c).data.head? = some (markerHead c) := by
  cases c <;> rfl

theorem marker_data_ne_nil (c : Category) : (marker c).data ≠ [] := by
  cases c <;> decide

theorem markerHead_ne {c c' : Category} (h : c ≠ c') : markerHead c ≠ markerHead c' := by
  cases c <;> cases c' <;> revert h <;> decide

theorem prefix_head_eq {p q : List Char} (h : p <+: q) (hp : p ≠ []) :
    p.head? = q.head? := by
  rcases h with ⟨t, rfl⟩
  cases p with
  | nil => exact absurd rfl hp
  | cons a l => rfl

theorem strStartsWith_eq_false_of_head {s : String} {c c' : Category}
    (hs : s.data.head? = some (markerHead c)) (hne : c' ≠ c) :
    strStartsWith s (marker c') = false := by
  rw [← Bool.not_eq_true]
  intro hx
  have h := strStartsWith_iff.mp hx
  have h2 := prefix_head_eq h (marker_data_ne_nil c')
  rw [marker_data_head c', hs] at h2
  exact markerHead_ne hne (Option.some.inj h2)

theorem hvReason_data_head (n : Nat) : (hvReason n).data.head? = some 'H' := by
  simp only [hvReason, String.data_append]
  rfl

theorem sensReason_data_head (n : Nat) (path : String) :
    (sensReason n path).data.head? = some 'S' := by
  simp only [sensReason, String.data_append]
  rfl

theorem burstReason_data_head (n : Nat) (d : Int) :
    (burstReason n d).data.head? = some 'B' := by
  simp only [burstReason, String.data_append]
  rfl

theorem geoReason_data_head (n : Nat) (country : String) :
    (geoReason n country).data.head? = some 'G' := by
  simp only [geoReason, String.data_append]
  rfl

theorem hvReason_hasMarker (n : Nat) :
    strStartsWith (hvReason n) (marker Category.highVolume) = true := by
  rw [strStartsWith_iff]
  simp only [hvReason, String.data_append]
  exact prefix_append_ext _ (prefix_append_ext _ (by decide))

theorem sensReason_hasMarker (n : Nat) (path : String) :
    strStartsWith (sensReason n path) (marker Category.sensitivePath) = true := by
  rw [strStartsWith_iff]
  simp only [sensReason, String.data_append]
  exact prefix_append_ext _ (prefix_append_ext _ (prefix_append_ext _ (by decide)))

theorem burstReason_hasMarker (n : Nat) (d : Int) :
    strStartsWith (burstReason n d) (marker Category.burstPattern) = true := by
  rw [strStartsWith_iff]
  simp only [burstReason, String.data_append]
  exact prefix_append_ext _ (prefix_append_ext _ (prefix_append_ext _
    (prefix_append_ext _ (by decide))))

theorem geoReason_hasMarker (n : Nat) (country : String) :
    strStartsWith (geoReason n country) (marker Category.geoAnomaly) = true := by
  rw [strStartsWith_iff]
  simp only [geoReason, String.data_append]
  exact prefix_append_ext _ (prefix_append_ext _ (prefix_append_ext _
    (prefix_append_ext _ (by decide))))

theorem hvReason_not_cat (n : Nat) {c : Category} (h : c ≠ Category.highVolume) :
    strStartsWith (hvReason n) (marker c) = false :=
  strStartsWith_eq_false_of_head (c := Category.highVolume) (hvReason_data_head n) h

theorem sensReason_not_cat (n : Nat) (path : String) {c : Category}
    (h : c ≠ Category.sensitivePath) :
    strStartsWith (sensReason n path) (marker c) = false :=
  strStartsWith_eq_false_of_head (c := Category.sensitivePath) (sensReason_data_head n path) h

theorem burstReason_not_cat (n : Nat) (d : Int) {c : Category}
    (h : c ≠ Category.burstPattern) :
    strStartsWith (burstReason n d) (marker c) = false :=
  strStartsWith_eq_false_of_head (c := Category.burstPattern) (burstReason_data_head n d) h

theorem geoReason_not_cat (n : Nat) (country : String) {c : Category}
    (h : c ≠ Category.geoAnomaly) :
    strStartsWith (geoReason n country) (marker c) = false :=
  strStartsWith_eq_false_of_head (c := Category.geoAnomaly) (geoReason_data_head n country) h

theorem suspExistsRecent_append {s1 s2 : List SuspiciousIP} {ip m : String} {now : Int} :
    suspExistsRecent (s1 ++ s2) ip m now =
      (suspExistsRecent s1 ip m now || suspExistsRecent s2 ip m now) := by
  simp [suspExistsRecent]

theorem suspExistsRecent_of_mem {susp : List SuspiciousIP} {ip m : String} {now : Int}
    {f : SuspiciousIP} (hf : f ∈ susp) (h1 : f.ip_address = ip)
    (h2 : strContains f.reason m = true) (h3 : now - 21600 < f.detected_at) :
    suspExistsRecent susp ip m now = true := by
  simp only [suspExistsRecent, List.any_eq_true]
  exact ⟨f, hf, by simp [h1, h2, h3]⟩

theorem suspExistsRecent_false_elim {susp : List SuspiciousIP} {ip m : String} {now : Int}
    {f : SuspiciousIP} (h : suspExistsRecent susp ip m now = false) (hf : f ∈ susp)
    (h1 : f.ip_address = ip) (h2 : strContains f.reason m = true) :
    f.detected_at ≤ now - 21600 := by
  by_contra hx
  push_neg at hx
  rw [suspExistsRecent_of_mem hf h1 h2 hx] at h
  exact absurd h (by decide)

theorem suspExistsRecent_singleton_ne {f : SuspiciousIP} {ip m : String} {now : Int}
    (h : f.ip_address ≠ ip) : suspExistsRecent [f] ip m now = false := by
  simp [suspExistsRecent, h]

section DetLoopLemmas

variable {α : Type} (ipOf : α → String) (mk : α → SuspiciousIP) (m : String) (now : Int)

theorem detLoopFlags_cons {c : α} {cs : List α} {susp : List SuspiciousIP} :
    detLoopFlags ipOf mk m now (c :: cs) susp =
      if suspExistsRecent susp (ipOf c) m now then detLoopFlags ipOf mk m now cs susp
      else mk c :: detLoopFlags ipOf mk m now cs (susp ++ [mk c]) := rfl

theorem detLoopFlags_mem {cands : List α} {susp : List SuspiciousIP} {f : SuspiciousIP}
    (h : f ∈ detLoopFlags ipOf mk m now cands susp) : ∃ c ∈ cands, f = mk c := by
  induction cands generalizing susp with
  | nil => exact absurd h (List.not_mem_nil f)
  | cons c cs ih =>
    rw [detLoopFlags_cons] at h
    split at h
    · rcases ih h with ⟨c', hc', rfl⟩
      exact ⟨c', List.mem_cons_of_mem _ hc', rfl⟩
    · rcases List.mem_cons.mp h with h | h
      · exact ⟨c, List.mem_cons_self .., h⟩
      · rcases ih h with ⟨c', hc', rfl⟩
        exact ⟨c', List.mem_cons_of_mem _ hc', rfl⟩

theorem detLoopFlags_not_mem_of_recent (H1 : ∀ c : α, (mk c).ip_address = ipOf c)
    {cands : List α} {susp : List SuspiciousIP} {ip : String}
    (hrec : suspExistsRecent susp ip m now = true) :
    ip ∉ (detLoopFlags ipOf mk m now cands susp).map (fun f => f.ip_address) := by
  induction cands generalizing susp with
  | nil => simp [detLoopFlags]
  | cons c cs ih =>
    rw [detLoopFlags_cons]
    split
    · exact ih hrec
    case isFalse hno =>
      simp only [List.map_cons, List.mem_cons, not_or]
      refine ⟨?_, ih (by rw [suspExistsRecent_append, hrec]; rfl)⟩
      intro h
      rw [H1] at h
      subst h
      exact hno hrec

theorem detLoopFlags_ips_nodup (H1 : ∀ c : α, (mk c).ip_address = ipOf c)
    (H2 : ∀ c : α, (mk c).detected_at = now)
    (H3 : ∀ c : α, strContains (mk c).reason m = true)
    {cands : List α} {susp : List SuspiciousIP} :
    ((detLoopFlags ipOf mk m now cands susp).map (fun f => f.ip_address)).Nodup := by
  induction cands generalizing susp with
  | nil => simp [detLoopFlags]
  | cons c cs ih =>
    rw [detLoopFlags_cons]
    split
    · exact ih
    · simp only [List.map_cons, List.nodup_cons]
      refine ⟨?_, ih⟩
      rw [H1]
      exact detLoopFlags_not_mem_of_recent ipOf mk m now H1
        (suspExistsRecent_of_mem (List.mem_append_right _ (List.mem_cons_self ..))
          (H1 c) (H3 c) (by rw [H2 c]; omega))

theorem detLoopFlags_mem_map_iff (H1 : ∀ c : α, (mk c).ip_address = ipOf c)
    {cands : List α} {susp : List SuspiciousIP} {ip : String} :
    ip ∈ (detLoopFlags ipOf mk m now cands susp).map (fun f => f.ip_address) ↔
      (∃ c ∈ cands, ipOf c = ip) ∧ suspExistsRecent susp ip m now = false := by
  induction cands generalizing susp with
  | nil => simp [detLoopFlags]
  | cons c cs ih =>
    rw [detLoopFlags_cons]
    split
    case isTrue hyes =>
      rw [ih]
      constructor
      · rintro ⟨⟨c', hc', rfl⟩, hrec⟩
        exact ⟨⟨c', List.mem_cons_of_mem _ hc', rfl⟩, hrec⟩
      · rintro ⟨⟨c', hc', rfl⟩, hrec⟩
        rcases List.mem_cons.mp hc' with rfl | hc'
        · rw [hyes] at hrec
          exact absurd hrec (by decide)
        · exact ⟨⟨c', hc', rfl⟩, hrec⟩
    case isFalse hno =>
      simp only [List.map_cons, List.mem_cons]
      rw [ih]
      constructor
      · rintro (h | ⟨⟨c', hc', rfl⟩, hrec'⟩)
        · rw [H1] at h
          subst h
          exact ⟨⟨c, Or.inl rfl, rfl⟩, by rw [← Bool.not_eq_true]; exact hno⟩
        · rw [suspExistsRecent_append, Bool.or_eq_false_iff] at hrec'
          exact ⟨⟨c', Or.inr hc', rfl⟩, hrec'.1⟩
      · rintro ⟨⟨c', hc', rfl⟩, hrec⟩
        by_cases hcc : ipOf c = ipOf c'
        · left
          rw [H1, hcc]
        · right
          rcases hc' with rfl | hc'
          · exact absurd rfl hcc
          · refine ⟨⟨c', hc', rfl⟩, ?_⟩
            rw [suspExistsRecent_append, hrec,
              suspExistsRecent_singleton_ne (by rw [H1]; exact hcc)]
            rfl

theorem detLoopFlags_resolved (H2 : ∀ c : α, (mk c).detected_at = now)
    (H4 : ∀ c : α, (mk c).is_resolved = false) (H5 : ∀ c : α, (mk c).auto_blocked = false)
    {cands : List α} {susp : List SuspiciousIP} {f : SuspiciousIP}
    (h : f ∈ detLoopFlags ipOf mk m now cands susp) :
    f.is_resolved = false ∧ f.auto_blocked = false ∧ f.detected_at = now := by
  rcases detLoopFlags_mem ipOf mk m now h with ⟨c, _, rfl⟩
  exact ⟨H4 c, H5 c, H2 c⟩

theorem detLoopFlags_inv (H1 : ∀ c : α, (mk c).ip_address = ipOf c)
    (H2 : ∀ c : α, (mk c).detected_at = now) (d : Category) (Hm : m = marker d)
    (HNP : ∀ c : α, ∀ c' : Category, c' ≠ d → strStartsWith (mk c).reason (marker c') = false)
    {cands : List α} {susp : List SuspiciousIP} (hinv : FlagInv susp) :
    FlagInv (susp ++ detLoopFlags ipOf mk m now cands susp) := by
  induction cands generalizing susp with
  | nil => simpa [detLoopFlags, FlagInv] using hinv
  | cons c cs ih =>
    rw [detLoopFlags_cons]
    split
    · exact ih hinv
    case isFalse hno =>
      rw [Bool.not_eq_true] at hno
      have hstep : FlagInv (susp ++ [mk c]) := by
        unfold FlagInv at hinv ⊢
        rw [List.pairwise_append]
        refine ⟨hinv, List.pairwise_singleton _ _, ?_⟩
        intro f hf g hg
        rw [List.mem_singleton] at hg
        subst hg
        intro hip c' hpf hpg
        by_cases hc' : c' = d
        · subst hc'
          have hcont : strContains f.reason m = true := by
            rw [Hm]
            exact strContains_of_strStartsWith hpf
          have hle := suspExistsRecent_false_elim hno hf (hip.trans (H1 c)) hcont
          right
          rw [H2]
          omega
        · rw [HNP c c' hc'] at hpg
          exact absurd hpg (by decide)
      rw [List.append_cons]
      exact ih hstep

end DetLoopLemmas

theorem mem_windowIps_iff {logs : List RequestLog} {startT endT : Int} {ip : String} :
    ip ∈ windowIps logs startT endT ↔ 0 < ipCount logs startT endT ip := by
  unfold windowIps ipCount
  rw [List.mem_dedup, List.mem_map]
  constructor
  · rintro ⟨r, hr, hip⟩
    rw [List.length_pos]
    intro hnil
    rw [List.filter_eq_nil_iff] at hnil
    exact hnil r hr (by simp [hip])
  · intro h
    rw [List.length_pos] at h
    rcases List.exists_mem_of_ne_nil _ h with ⟨r, hr⟩
    rw [List.mem_filter] at hr
    exact ⟨r, hr.1, by simpa using hr.2⟩

theorem hvCandidates_mem_iff {logs : List RequestLog} {startT endT : Int} {ip : String}
    {k : Nat} :
    (ip, k) ∈ hvCandidates logs startT endT ↔
      100 < ipCount logs startT endT ip ∧ k = ipCount logs startT endT ip := by
  unfold hvCandidates
  rw [List.mem_filterMap]
  constructor
  · rintro ⟨ip', hip', hsome⟩
    split at hsome
    case isTrue h100 =>
      rcases Prod.mk.injEq .. ▸ Option.some.inj hsome with ⟨rfl, rfl⟩
      exact ⟨h100, rfl⟩
    case isFalse => exact absurd hsome (by simp)
  · rintro ⟨h100, rfl⟩
    exact ⟨ip, mem_windowIps_iff.mpr (by omega), by rw [if_pos h100]⟩

theorem ipWindowLogs_length {logs : List RequestLog} {startT endT : Int} {ip : String} :
    (ipWindowLogs logs startT endT ip).length = ipCount logs startT endT ip := rfl

theorem burstCandidates_mem_iff {logs : List RequestLog} {startT endT : Int} {ip : String} :
    ip ∈ burstCandidates logs startT endT ↔
      50 < ipCount logs startT endT ip ∧ burstDuration logs startT endT ip < 300 := by
  unfold burstCandidates
  rw [List.mem_filter]
  constructor
  · rintro ⟨_, hcond⟩
    rw [Bool.and_eq_true, decide_eq_true_iff] at hcond
    rcases hcond with ⟨h50, hrest⟩
    split at hrest
    · exact absurd hrest (by decide)
    · exact ⟨h50, of_decide_eq_true hrest⟩
  · rintro ⟨h50, h300⟩
    refine ⟨mem_windowIps_iff.mpr (by omega), ?_⟩
    rw [Bool.and_eq_true, decide_eq_true_iff]
    refine ⟨h50, ?_⟩
    rw [if_neg (by rw [ipWindowLogs_length]; omega)]
    exact decide_eq_true h300

theorem hvNewFlags_evidence {st : State} {startT endT now : Int} {f : SuspiciousIP}
    (h : f ∈ hvNewFlags st startT endT now) :
    f.request_count = ipCount st.requestLogs startT endT f.ip_address ∧
      100 < ipCount st.requestLogs startT endT f.ip_address := by
  rcases detLoopFlags_mem _ _ _ _ h with ⟨⟨ip, k⟩, hc, rfl⟩
  rcases hvCandidates_mem_iff.mp hc with ⟨h100, rfl⟩
  exact ⟨rfl, h100⟩

theorem hv_flagged_iff {st : State} {startT endT now : Int} {ip : String} :
    ip ∈ (detect_high_volume_requests st startT endT now).2 ↔
      100 < ipCount st.requestLogs startT endT ip ∧
        suspExistsRecent st.suspicious ip "High volume" now = false := by
  show ip ∈ (hvNewFlags st startT endT now).map (fun f => f.ip_address) ↔ _
  unfold hvNewFlags
  rw [detLoopFlags_mem_map_iff Prod.fst (mkHvFlag now) "High volume" now (fun _ => rfl)]
  constructor
  · rintro ⟨⟨⟨ip', k⟩, hc, rfl⟩, hrec⟩
    rcases hvCandidates_mem_iff.mp hc with ⟨h100, _⟩
    exact ⟨h100, hrec⟩
  · rintro ⟨h100, hrec⟩
    exact ⟨⟨(ip, ipCount st.requestLogs startT endT ip),
      hvCandidates_mem_iff.mpr ⟨h100, rfl⟩, rfl⟩, hrec⟩

theorem sens_flagged_iff {st : State} {startT endT now : Int} {ip : String} :
    ip ∈ (detect_sensitive_path_access st startT endT now).2 ↔
      (∃ path k, (ip, path, k) ∈ sensCandidates st.requestLogs startT endT) ∧
        suspExistsRecent st.suspicious ip "Sensitive path access" now = false := by
  show ip ∈ (sensNewFlags st startT endT now).map (fun f => f.ip_address) ↔ _
  unfold sensNewFlags
  rw [detLoopFlags_mem_map_iff (fun t : String × String × Nat => t.1) (mkSensFlag now)
    "Sensitive path access" now (fun _ => rfl)]
  constructor
  · rintro ⟨⟨⟨ip', path, k⟩, hc, rfl⟩, hrec⟩
    exact ⟨⟨path, k, hc⟩, hrec⟩
  · rintro ⟨⟨path, k, hc⟩, hrec⟩
    exact ⟨⟨(ip, path, k), hc, rfl⟩, hrec⟩

theorem burstNewFlags_span {st : State} {startT endT now : Int} {f : SuspiciousIP}
    (h : f ∈ burstNewFlags st startT endT now) :
    burstDuration st.requestLogs startT endT f.ip_address < 300 ∧
      50 < ipCount st.requestLogs startT endT f.ip_address := by
  rcases detLoopFlags_mem _ _ _ _ h with ⟨ip, hc, rfl⟩
  rcases burstCandidates_mem_iff.mp hc with ⟨h50, h300⟩
  exact ⟨h300, h50⟩

theorem hvNewFlags_fields {st : State} {startT endT now : Int} {f : SuspiciousIP}
    (h : f ∈ hvNewFlags st startT endT now) :
    f.is_resolved = false ∧ f.auto_blocked = false ∧ f.detected_at = now :=
  detLoopFlags_resolved Prod.fst (mkHvFlag now) "High volume" now
    (fun _ => rfl) (fun _ => rfl) (fun _ => rfl) h

theorem sensNewFlags_fields {st : State} {startT endT now : Int} {f : SuspiciousIP}
    (h : f ∈ sensNewFlags st startT endT now) :
    f.is_resolved = false ∧ f.auto_blocked = false ∧ f.detected_at = now :=
  detLoopFlags_resolved (fun t : String × String × Nat => t.1) (mkSensFlag now)
    "Sensitive path access" now (fun _ => rfl) (fun _ => rfl) (fun _ => rfl) h

theorem burstNewFlags_fields {st : State} {startT endT now : Int} {f : SuspiciousIP}
    (h : f ∈ burstNewFlags st startT endT now) :
    f.is_resolved = false ∧ f.auto_blocked = false ∧ f.detected_at = now :=
  detLoopFlags_resolved id (mkBurstFlag st.requestLogs startT endT now)
    "Burst pattern" now (fun _ => rfl) (fun _ => rfl) (fun _ => rfl) h

theorem geoNewFlags_fields {st : State} {startT endT now : Int} {f : SuspiciousIP}
    (h : f ∈ geoNewFlags st startT endT now) :
    f.is_resolved = false ∧ f.auto_blocked = false ∧ f.detected_at = now :=
  detLoopFlags_resolved (fun t : String × String × Nat => t.1) (mkGeoFlag now)
    "Geographic anomaly" now (fun _ => rfl) (fun _ => rfl) (fun _ => rfl) h

theorem hvNewFlags_inv {st : State} {startT endT now : Int} (h : FlagInv st.suspicious) :
    FlagInv (st.suspicious ++ hvNewFlags st startT endT now) :=
  detLoopFlags_inv Prod.fst (mkHvFlag now) "High volume" now
    (fun _ => rfl) (fun _ => rfl) Category.highVolume rfl
    (fun p c' hc' => hvReason_not_cat p.2 hc') h

theorem sensNewFlags_inv {st : State} {startT endT now : Int} (h : FlagInv st.suspicious) :
    FlagInv (st.suspicious ++ sensNewFlags st startT endT now) :=
  detLoopFlags_inv (fun t : String × String × Nat => t.1) (mkSensFlag now)
    "Sensitive path access" now (fun _ => rfl) (fun _ => rfl) Category.sensitivePath rfl
    (fun t c' hc' => sensReason_not_cat t.2.2 t.2.1 hc') h

theorem burstNewFlags_inv {st : State} {startT endT now : Int} (h : FlagInv st.suspicious) :
    FlagInv (st.suspicious ++ burstNewFlags st startT endT now) :=
  detLoopFlags_inv id (mkBurstFlag st.requestLogs startT endT now) "Burst pattern" now
    (fun _ => rfl) (fun _ => rfl) Category.burstPattern rfl
    (fun ip c' hc' => burstReason_not_cat _ _ hc') h

theorem geoNewFlags_inv {st : State} {startT endT now : Int} (h : FlagInv st.suspicious) :
    FlagInv (st.suspicious ++ geoNewFlags st startT endT now) :=
  detLoopFlags_inv (fun t : String × String × Nat => t.1) (mkGeoFlag now)
    "Geographic anomaly" now (fun _ => rfl) (fun _ => rfl) Category.geoAnomaly rfl
    (fun t c' hc' => geoReason_not_cat t.2.2 t.2.1 hc') h

theorem hvNewFlags_ips_nodup {st : State} {startT endT now : Int} :
    ((hvNewFlags st startT endT now).map (fun f => f.ip_address)).Nodup :=
  detLoopFlags_ips_nodup Prod.fst (mkHvFlag now) "High volume" now
    (fun _ => rfl) (fun _ => rfl)
    (fun p => strContains_of_strStartsWith (hvReason_hasMarker p.2))

theorem sensNewFlags_ips_nodup {st : State} {startT endT now : Int} :
    ((sensNewFlags st startT endT now).map (fun f => f.ip_address)).Nodup :=
  detLoopFlags_ips_nodup (fun t : String × String × Nat => t.1) (mkSensFlag now)
    "Sensitive path access" now (fun _ => rfl) (fun _ => rfl)
    (fun t => strContains_of_strStartsWith (sensReason_hasMarker t.2.2 t.2.1))

theorem burstNewFlags_ips_nodup {st : State} {startT endT now : Int} :
    ((burstNewFlags st startT endT now).map (fun f => f.ip_address)).Nodup :=
  detLoopFlags_ips_nodup id (mkBurstFlag st.requestLogs startT endT now) "Burst pattern" now
    (fun _ => rfl) (fun _ => rfl)
    (fun ip => strContains_of_strStartsWith (burstReason_hasMarker _ _))

theorem geoNewFlags_ips_nodup {st : State} {startT endT now : Int} :
    ((geoNewFlags st startT endT now).map (fun f => f.ip_address)).Nodup :=
  detLoopFlags_ips_nodup (fun t : String × String × Nat => t.1) (mkGeoFlag now)
    "Geographic anomaly" now (fun _ => rfl) (fun _ => rfl)
    (fun t => strContains_of_strStartsWith (geoReason_hasMarker t.2.2 t.2.1))

theorem markAutoBlocked_ip_address (ip : String) (f : SuspiciousIP) :
    (markAutoBlocked ip f).ip_address = f.ip_address := by
  unfold markAutoBlocked
  split <;> rfl

theorem markAutoBlocked_reason (ip : String) (f : SuspiciousIP) :
    (markAutoBlocked ip f).reason = f.reason := by
  unfold markAutoBlocked
  split <;> rfl

theorem markAutoBlocked_detected_at (ip : String) (f : SuspiciousIP) :
    (markAutoBlocked ip f).detected_at = f.detected_at := by
  unfold markAutoBlocked
  split <;> rfl

theorem markAutoBlocked_is_resolved (ip : String) (f : SuspiciousIP) :
    (markAutoBlocked ip f).is_resolved = f.is_resolved := by
  unfold markAutoBlocked
  split <;> rfl

theorem markAutoBlocked_key (ip : String) (f : SuspiciousIP) :
    flagKey (markAutoBlocked ip f) = flagKey f := by
  unfold flagKey
  rw [markAutoBlocked_ip_address, markAutoBlocked_is_resolved, markAutoBlocked_detected_at]

theorem markAutoBlocked_eq_self {ip : String} {f : SuspiciousIP} (h : f.ip_address ≠ ip) :
    markAutoBlocked ip f = f := by
  unfold markAutoBlocked
  have hcond : (f.ip_address == ip && !f.is_resolved) = false := by simp [h]
  rw [hcond]
  rfl

theorem flagRel_markAutoBlocked {ip : String} {f g : SuspiciousIP} (h : FlagRel f g) :
    FlagRel (markAutoBlocked ip f) (markAutoBlocked ip g) := by
  intro hip c hpf hpg
  rw [markAutoBlocked_ip_address, markAutoBlocked_ip_address] at hip
  rw [markAutoBlocked_reason] at hpf hpg
  rw [markAutoBlocked_detected_at, markAutoBlocked_detected_at]
  exact h hip c hpf hpg

theorem flagInv_map_mark {ip : String} {susp : List SuspiciousIP} (h : FlagInv susp) :
    FlagInv (susp.map (markAutoBlocked ip)) := by
  unfold FlagInv at h ⊢
  rw [List.pairwise_map]
  exact h.imp flagRel_markAutoBlocked

theorem flagsFor_map_mark_ne {susp : List SuspiciousIP} {ip ip' : String} (h : ip ≠ ip') :
    (susp.map (markAutoBlocked ip')).filter (fun f => f.ip_address == ip) =
      susp.filter (fun f => f.ip_address == ip) := by
  rw [List.filter_map]
  have hp : ((fun f : SuspiciousIP => f.ip_address == ip) ∘ markAutoBlocked ip') =
      (fun f : SuspiciousIP => f.ip_address == ip) := by
    funext f
    simp [Function.comp, markAutoBlocked_ip_address]
  rw [hp]
  have hid : ∀ f ∈ susp.filter (fun f : SuspiciousIP => f.ip_address == ip),
      markAutoBlocked ip' f = f := by
    intro f hf
    rw [List.mem_filter] at hf
    refine markAutoBlocked_eq_self ?_
    have : f.ip_address = ip := by simpa using hf.2
    rw [this]
    exact h
  rw [List.map_congr_left hid, List.map_id']

theorem flagsFor_map_mark_self {susp : List SuspiciousIP} {ip : String} :
    (susp.map (markAutoBlocked ip)).filter (fun f => f.ip_address == ip) =
      (susp.filter (fun f => f.ip_address == ip)).map (markAutoBlocked ip) := by
  rw [List.filter_map]
  have hp : ((fun f : SuspiciousIP => f.ip_address == ip) ∘ markAutoBlocked ip) =
      (fun f : SuspiciousIP => f.ip_address == ip) := by
    funext f
    simp [Function.comp, markAutoBlocked_ip_address]
  rw [hp]

theorem escalateLoop_nil {now : Int} {st : State} {n : Nat} :
    escalateLoop now [] st n = (st, n) := rfl

theorem escalateLoop_cons {now : Int} {ip : String} {rest : List String} {st : State}
    {n : Nat} :
    escalateLoop now (ip :: rest) st n =
      if blockedHas st ip then escalateLoop now rest st n
      else escalateLoop now rest
        { st with
          blocked := st.blocked ++ [autoEntry ip now],
          suspicious := st.suspicious.map (markAutoBlocked ip) }
        (n + 1) := rfl

theorem escalateLoop_requestLogs {now : Int} {ips : List String} {st : State} {n : Nat} :
    (escalateLoop now ips st n).1.requestLogs = st.requestLogs := by
  induction ips generalizing st n with
  | nil => rfl
  | cons ip rest ih =>
    rw [escalateLoop_cons]
    split
    · exact ih
    · exact ih

theorem escalateLoop_flagKeys {now : Int} {ips : List String} {st : State} {n : Nat} :
    (escalateLoop now ips st n).1.suspicious.map flagKey = st.suspicious.map flagKey := by
  induction ips generalizing st n with
  | nil => rfl
  | cons ip rest ih =>
    rw [escalateLoop_cons]
    split
    · exact ih
    · rw [ih]
      show (st.suspicious.map (markAutoBlocked ip)).map flagKey = st.suspicious.map flagKey
      rw [List.map_map]
      exact List.map_congr_left (fun f _ => markAutoBlocked_key ip f)

theorem escalateLoop_susp_length {now : Int} {ips : List String} {st : State} {n : Nat} :
    (escalateLoop now ips st n).1.suspicious.length = st.suspicious.length := by
  have h : (escalateLoop now ips st n).1.suspicious.map flagKey =
      st.suspicious.map flagKey := escalateLoop_flagKeys
  have h2 := congrArg List.length h
  rwa [List.length_map, List.length_map] at h2

theorem escalateLoop_inv {now : Int} {ips : List String} {st : State} {n : Nat}
    (h : FlagInv st.suspicious) : FlagInv (escalateLoop now ips st n).1.suspicious := by
  induction ips generalizing st n with
  | nil => exact h
  | cons ip rest ih =>
    rw [escalateLoop_cons]
    split
    · exact ih h
    · exact ih (flagInv_map_mark h)

theorem escalateLoop_blockedHas_mono {now : Int} {ips : List String} {st : State} {n : Nat}
    {ip : String} (h : blockedHas st ip = true) :
    blockedHas (escalateLoop now ips st n).1 ip = true := by
  induction ips generalizing st n with
  | nil => exact h
  | cons ip' rest ih =>
    rw [escalateLoop_cons]
    split
    · exact ih h
    · apply ih
      show (st.blocked ++ [autoEntry ip' now]).any
        (fun b => b.ip_address == ip) = true
      rw [List.any_append]
      unfold blockedHas at h
      rw [h]
      rfl

theorem escalateLoop_frame_not_mem {now : Int} {ips : List String} {st : State} {n : Nat}
    {ip : String} (h : ip ∉ ips) :
    entriesFor (escalateLoop now ips st n).1 ip = entriesFor st ip ∧
      flagsFor (escalateLoop now ips st n).1 ip = flagsFor st ip := by
  induction ips generalizing st n with
  | nil => exact ⟨rfl, rfl⟩
  | cons ip' rest ih =>
    have hne : ip ≠ ip' := fun hh => h (hh ▸ List.mem_cons_self ..)
    have hrest : ip ∉ rest := fun hh => h (List.mem_cons_of_mem _ hh)
    rw [escalateLoop_cons]
    split
    · exact ih hrest
    · rcases ih hrest with ⟨he, hf⟩
      refine ⟨?_, ?_⟩
      · rw [he]
        show (st.blocked ++ [autoEntry ip' now]).filter
            (fun b => b.ip_address == ip) = entriesFor st ip
        rw [List.filter_append]
        simp [entriesFor, autoEntry, Ne.symm hne]
      · rw [hf]
        exact flagsFor_map_mark_ne hne

theorem escalateLoop_mem_blocked {now : Int} {ips : List String} {st : State} {n : Nat}
    {ip : String} (h : ip ∈ ips) :
    blockedHas (escalateLoop now ips st n).1 ip = true := by
  induction ips generalizing st n with
  | nil => exact absurd h (List.not_mem_nil ip)
  | cons ip' rest ih =>
    rw [escalateLoop_cons]
    split
    case isTrue hb =>
      rcases List.mem_cons.mp h with rfl | hmem
      · exact escalateLoop_blockedHas_mono hb
      · exact ih hmem
    case isFalse hb =>
      rcases List.mem_cons.mp h with rfl | hmem
      · apply escalateLoop_blockedHas_mono
        show (st.blocked ++ [autoEntry ip now]).any
          (fun b => b.ip_address == ip) = true
        rw [List.any_append]
        simp [autoEntry]
      · exact ih hmem

theorem escalateLoop_noop {now : Int} {ips : List String} {st : State} {n : Nat}
    (h : ∀ ip ∈ ips, blockedHas st ip = true) :
    escalateLoop now ips st n = (st, n) := by
  induction ips with
  | nil => rfl
  | cons ip rest ih =>
    rw [escalateLoop_cons, if_pos (h ip (List.mem_cons_self ..))]
    exact ih (fun x hx => h x (List.mem_cons_of_mem _ hx))

theorem escalateLoop_frame_blocked {now : Int} {ips : List String} {st : State} {n : Nat}
    {ip : String} (h : blockedHas st ip = true) :
    entriesFor (escalateLoop now ips st n).1 ip = entriesFor st ip ∧
      flagsFor (escalateLoop now ips st n).1 ip = flagsFor st ip := by
  induction ips generalizing st n with
  | nil => exact ⟨rfl, rfl⟩
  | cons ip' rest ih =>
    rw [escalateLoop_cons]
    split
    · exact ih h
    case isFalse hb =>
      have hne : ip ≠ ip' := fun hh => hb (hh ▸ h)
      have h' : blockedHas
          { st with
            blocked := st.blocked ++ [autoEntry ip' now],
            suspicious := st.suspicious.map (markAutoBlocked ip') } ip = true := by
        show (st.blocked ++ [autoEntry ip' now]).any
          (fun b => b.ip_address == ip) = true
        rw [List.any_append]
        unfold blockedHas at h
        rw [h]
        rfl
      rcases ih h' with ⟨he, hf⟩
      refine ⟨?_, ?_⟩
      · rw [he]
        show (st.blocked ++ [autoEntry ip' now]).filter
            (fun b => b.ip_address == ip) = entriesFor st ip
        rw [List.filter_append]
        simp [entriesFor, autoEntry, Ne.symm hne]
      · rw [hf]
        exact flagsFor_map_mark_ne hne

theorem escalateLoop_creates {now : Int} {ips : List String} {st : State} {n : Nat}
    {ip : String} (hmem : ip ∈ ips) (hnd : ips.Nodup) (hnb : blockedHas st ip = false) :
    entriesFor (escalateLoop now ips st n).1 ip =
      entriesFor st ip ++ [autoEntry ip now] ∧
      flagsFor (escalateLoop now ips st n).1 ip = (flagsFor st ip).map (markAutoBlocked ip) := by
  induction ips generalizing st n with
  | nil => exact absurd hmem (List.not_mem_nil ip)
  | cons ip' rest ih =>
    rw [List.nodup_cons] at hnd
    rw [escalateLoop_cons]
    rcases List.mem_cons.mp hmem with rfl | hmem'
    · rw [if_neg (by rw [hnb]; exact Bool.false_ne_true)]
      refine ⟨?_, ?_⟩
      · rw [(escalateLoop_frame_not_mem hnd.1).1]
        show (st.blocked ++ [autoEntry ip now]).filter
            (fun b => b.ip_address == ip) =
          entriesFor st ip ++ [autoEntry ip now]
        rw [List.filter_append]
        simp [entriesFor, autoEntry]
      · rw [(escalateLoop_frame_not_mem hnd.1).2]
        exact flagsFor_map_mark_self
    · have hne : ip ≠ ip' := fun hh => hnd.1 (hh ▸ hmem')
      split
      · exact ih hmem' hnd.2 hnb
      case isFalse hb =>
        have hnb' : blockedHas
            { st with
              blocked := st.blocked ++ [autoEntry ip' now],
              suspicious := st.suspicious.map (markAutoBlocked ip') } ip = false := by
          show (st.blocked ++ [autoEntry ip' now]).any
            (fun b => b.ip_address == ip) = false
          rw [List.any_append]
          unfold blockedHas at hnb
          rw [hnb]
          simp [autoEntry, Ne.symm hne]
        rcases ih hmem' hnd.2 hnb' with ⟨he, hf⟩
        refine ⟨?_, ?_⟩
        · rw [he]
          have hee : (st.blocked ++ [autoEntry ip' now]).filter
              (fun b => b.ip_address == ip) = entriesFor st ip := by
            rw [List.filter_append]
            simp [entriesFor, autoEntry, Ne.symm hne]
          show (st.blocked ++ [autoEntry ip' now]).filter
              (fun b => b.ip_address == ip) ++ [autoEntry ip now] =
            entriesFor st ip ++ [autoEntry ip now]
          rw [hee]
        · rw [hf]
          show ((st.suspicious.map (markAutoBlocked ip')).filter
              (fun f => f.ip_address == ip)).map (markAutoBlocked ip) =
            (flagsFor st ip).map (markAutoBlocked ip)
          rw [flagsFor_map_mark_ne hne]
          rfl

theorem entriesFor_eq_nil_of_not_blocked {st : State} {ip : String}
    (h : blockedHas st ip = false) : entriesFor st ip = [] := by
  unfold blockedHas at h
  unfold entriesFor
  rw [List.filter_eq_nil_iff]
  intro b hb hbeq
  rw [List.any_eq_false] at h
  exact h b hb hbeq

theorem recentUnresolved_map_ip_eq {susp : List SuspiciousIP} {now : Int} :
    (recentUnresolved susp now).map (fun f => f.ip_address) =
      ((susp.map flagKey).filter (fun k => decide (now - 86400 < k.2.2) && !k.2.1)).map
        (fun k => k.1) := by
  rw [List.filter_map, List.map_map]
  rfl

theorem flagCount_eq_keys {susp : List SuspiciousIP} {now : Int} {ip : String} :
    flagCount susp now ip =
      (((susp.map flagKey).filter (fun k => decide (now - 86400 < k.2.2) && !k.2.1)).filter
        (fun k => k.1 == ip)).length := by
  rw [List.filter_map, List.filter_map, List.length_map]
  rfl

theorem qualifyingIps_congr {s1 s2 : List SuspiciousIP} {now : Int}
    (h : s1.map flagKey = s2.map flagKey) :
    qualifyingIps s1 now = qualifyingIps s2 now := by
  unfold qualifyingIps
  have e1 : (recentUnresolved s1 now).map (fun f => f.ip_address) =
      (recentUnresolved s2 now).map (fun f => f.ip_address) := by
    rw [recentUnresolved_map_ip_eq, recentUnresolved_map_ip_eq, h]
  have e2 : ∀ ip, flagCount s1 now ip = flagCount s2 now ip := by
    intro ip
    rw [flagCount_eq_keys, flagCount_eq_keys, h]
  rw [e1]
  congr 1
  funext ip
  rw [e2]

theorem mem_qualifyingIps_iff {susp : List SuspiciousIP} {now : Int} {ip : String} :
    ip ∈ qualifyingIps susp now ↔ 3 ≤ flagCount susp now ip := by
  unfold qualifyingIps
  rw [List.mem_filter, List.mem_dedup]
  constructor
  · rintro ⟨_, h⟩
    exact of_decide_eq_true h
  · intro h
    refine ⟨?_, decide_eq_true h⟩
    have hpos : 0 < flagCount susp now ip := by omega
    unfold flagCount at hpos
    rw [List.length_pos] at hpos
    rcases List.exists_mem_of_ne_nil _ hpos with ⟨f, hf⟩
    rw [List.mem_filter] at hf
    exact List.mem_map.mpr ⟨f, hf.1, by simpa using hf.2⟩

theorem qualifyingIps_nodup {susp : List SuspiciousIP} {now : Int} :
    (qualifyingIps susp now).Nodup :=
  (List.nodup_dedup _).filter _

theorem detect_anomalies_inv {now : Int} {st : State} (h : FlagInv st.suspicious) :
    FlagInv (detect_anomalies now st).1.suspicious := by
  have h1 : FlagInv (stage1 now st).suspicious := hvNewFlags_inv h
  have h2 : FlagInv (stage2 now st).suspicious := sensNewFlags_inv h1
  have h3 : FlagInv (stage3 now st).suspicious := burstNewFlags_inv h2
  have h4 : FlagInv (stage4 now st).suspicious := geoNewFlags_inv h3
  exact escalateLoop_inv h4

theorem runSeq_inv {ts : List Int} {st : State} (h : FlagInv st.suspicious) :
    FlagInv (runSeq ts st).suspicious := by
  induction ts generalizing st with
  | nil => exact h
  | cons t rest ih => exact ih (detect_anomalies_inv h)

/-- C1: for every state, the Escalator creates, for each IP with at least 3
unresolved flags detected in the last 24 hours (pooled across categories) and
not already in the block list, exactly one BlockEntry carrying the auto-block
reason, and marks every unresolved flag of that IP auto-blocked; an IP with
fewer than 3 such flags gets no BlockEntry and no flag updates. -/
theorem escalator_spec (st : State) (now : Int) (ip : String) :
    (3 ≤ flagCount st.suspicious now ip → blockedHas st ip = false →
      entriesFor (autoBlockState now st) ip = [autoEntry ip now] ∧
      flagsFor (autoBlockState now st) ip = (flagsFor st ip).map (markAutoBlocked ip) ∧
      ∀ f ∈ flagsFor (autoBlockState now st) ip, f.is_resolved = false →
        f.auto_blocked = true) ∧
    (flagCount st.suspicious now ip < 3 →
      entriesFor (autoBlockState now st) ip = entriesFor st ip ∧
      flagsFor (autoBlockState now st) ip = flagsFor st ip) := by
  constructor
  · intro h3 hnb
    have hmem : ip ∈ qualifyingIps st.suspicious now := mem_qualifyingIps_iff.mpr h3
    have hcr : entriesFor (autoBlockState now st) ip =
        entriesFor st ip ++ [autoEntry ip now] ∧
        flagsFor (autoBlockState now st) ip = (flagsFor st ip).map (markAutoBlocked ip) :=
      escalateLoop_creates hmem qualifyingIps_nodup hnb
    refine ⟨?_, hcr.2, ?_⟩
    · rw [hcr.1, entriesFor_eq_nil_of_not_blocked hnb]
      rfl
    · intro f hf hres
      rw [hcr.2] at hf
      rcases List.mem_map.mp hf with ⟨g, hg, rfl⟩
      unfold flagsFor at hg
      rw [List.mem_filter] at hg
      have hgres : g.is_resolved = false := by
        rw [← markAutoBlocked_is_resolved ip g]
        exact hres
      unfold markAutoBlocked
      rw [if_pos (by rw [Bool.and_eq_true]; exact ⟨hg.2, by rw [hgres]; rfl⟩)]
  · intro hlt
    have hnotmem : ip ∉ qualifyingIps st.suspicious now := fun hm =>
      absurd (mem_qualifyingIps_iff.mp hm) (by omega)
    exact escalateLoop_frame_not_mem hnotmem

/-- witness for C1 at a concrete store with three qualifying flags -/
theorem escalator_spec_witness :
    3 ≤ flagCount escState.suspicious 2000 "9.9.9.9" ∧
    blockedHas escState "9.9.9.9" = false ∧
    entriesFor (autoBlockState 2000 escState) "9.9.9.9" = [autoEntry "9.9.9.9" 2000] :=
  ⟨by decide, by decide,
    ((escalator_spec escState 2000 "9.9.9.9").1 (by decide) (by decide)).1⟩

/-- C2 (amended): across any sequence of detection runs the cool-down
invariant holds — no two same-IP flags bearing the same category marker as
reason prefix are less than six hours apart; a High-Volume or Sensitive-Path
candidate is flagged exactly when its threshold condition holds and no flag
whose reason text CONTAINS the category marker (in particular any
same-category flag) is recent; new flags carry resolved=false and
auto_blocked=false. -/
theorem dedup_cooldown (ts : List Int) (s0 : State) (hInv : FlagInv s0.suspicious)
    (st : State) (startT endT now : Int) (ip : String) (f : SuspiciousIP) :
    FlagInv (runSeq ts s0).suspicious ∧
    (ip ∈ (detect_high_volume_requests st startT endT now).2 ↔
      100 < ipCount st.requestLogs startT endT ip ∧
        suspExistsRecent st.suspicious ip "High volume" now = false) ∧
    (ip ∈ (detect_sensitive_path_access st startT endT now).2 ↔
      (∃ path k, (ip, path, k) ∈ sensCandidates st.requestLogs startT endT) ∧
        suspExistsRecent st.suspicious ip "Sensitive path access" now = false) ∧
    (f ∈ hvNewFlags st startT endT now ∨ f ∈ sensNewFlags st startT endT now ∨
        f ∈ burstNewFlags st startT endT now ∨ f ∈ geoNewFlags st startT endT now →
      f.is_resolved = false ∧ f.auto_blocked = false ∧ f.detected_at = now) := by
  refine ⟨runSeq_inv hInv, hv_flagged_iff, sens_flagged_iff, ?_⟩
  rintro (h | h | h | h)
  · exact hvNewFlags_fields h
  · exact sensNewFlags_fields h
  · exact burstNewFlags_fields h
  · exact geoNewFlags_fields h

/-- witness for C2 at a concrete run sequence and store -/
theorem dedup_cooldown_witness :
    FlagInv (runSeq [3600] ⟨[], [], []⟩).suspicious ∧
    ("1.2.3.4" ∈ (detect_high_volume_requests cexState 0 100 100).2 ↔
      100 < ipCount cexState.requestLogs 0 100 "1.2.3.4" ∧
        suspExistsRecent cexState.suspicious "1.2.3.4" "High volume" 100 = false) :=
  ⟨(dedup_cooldown [3600] ⟨[], [], []⟩ List.Pairwise.nil cexState 0 100 100 "1.2.3.4"
      cexGeoFlag).1,
    (dedup_cooldown [3600] ⟨[], [], []⟩ List.Pairwise.nil cexState 0 100 100 "1.2.3.4"
      cexGeoFlag).2.1⟩

/-- counterexample to C2 as stated: the IP has 101 in-window events and no
recent flag of the High-Volume category (no reason starts with its marker),
yet no new flag is created, because a recent Geo-Anomaly flag's reason text
contains the marker inside its country name. -/
theorem dedup_cooldown_cex :
    100 < ipCount cexState.requestLogs 0 100 "1.2.3.4" ∧
    (∀ f ∈ cexState.suspicious,
      strStartsWith f.reason (marker Category.highVolume) = false) ∧
    (detect_high_volume_requests cexState 0 100 100).2 = [] :=
  ⟨by decide, by decide, by decide⟩

/-- C3: the High-Volume detector's candidates are exactly the IPs with
in-window count strictly above 100, the candidate count is the exact in-window
count, and every stored flag's evidence count equals the exact count. -/
theorem hv_detector_exact (logs : List RequestLog) (startT endT : Int) (ip : String)
    (k : Nat) (st : State) (now : Int) (f : SuspiciousIP) :
    ((∃ j, (ip, j) ∈ hvCandidates logs startT endT) ↔ 100 < ipCount logs startT endT ip) ∧
    ((ip, k) ∈ hvCandidates logs startT endT → k = ipCount logs startT endT ip) ∧
    (f ∈ hvNewFlags st startT endT now →
      f.request_count = ipCount st.requestLogs startT endT f.ip_address ∧
        100 < ipCount st.requestLogs startT endT f.ip_address) := by
  refine ⟨⟨?_, ?_⟩, ?_, hvNewFlags_evidence⟩
  · rintro ⟨j, hj⟩
    exact (hvCandidates_mem_iff.mp hj).1
  · intro h
    exact ⟨ipCount logs startT endT ip, hvCandidates_mem_iff.mpr ⟨h, rfl⟩⟩
  · intro h
    exact (hvCandidates_mem_iff.mp h).2

/-- witness for C3 at a concrete store with 101 in-window events -/
theorem hv_detector_exact_witness :
    ((∃ j, ("1.2.3.4", j) ∈ hvCandidates cexLogs 0 100) ↔
      100 < ipCount cexLogs 0 100 "1.2.3.4") ∧
    100 < ipCount cexLogs 0 100 "1.2.3.4" :=
  ⟨(hv_detector_exact cexLogs 0 100 "1.2.3.4" 101 ⟨cexLogs, [], []⟩ 100 cexGeoFlag).1,
    by decide⟩

/-- C4: the Burst-Pattern detector's candidates are exactly the IPs with
in-window count strictly above 50 and first-to-last span strictly below 300
seconds; every flag it stores is for an IP whose span is below 300 seconds,
so an IP with span at least 300 seconds is never flagged. -/
theorem burst_detector_span (logs : List RequestLog) (startT endT : Int) (ip : String)
    (st : State) (now : Int) (f : SuspiciousIP) :
    (ip ∈ burstCandidates logs startT endT ↔
      50 < ipCount logs startT endT ip ∧ burstDuration logs startT endT ip < 300) ∧
    (f ∈ burstNewFlags st startT endT now →
      burstDuration st.requestLogs startT endT f.ip_address < 300 ∧
        50 < ipCount st.requestLogs startT endT f.ip_address) :=
  ⟨burstCandidates_mem_iff, burstNewFlags_span⟩

/-- witness for C4 at a concrete burst store -/
theorem burst_detector_span_witness :
    ("8.8.8.8" ∈ burstCandidates burstLogs 0 100 ↔
      50 < ipCount burstLogs 0 100 "8.8.8.8" ∧ burstDuration burstLogs 0 100 "8.8.8.8" < 300) ∧
    "8.8.8.8" ∈ burstCandidates burstLogs 0 100 :=
  ⟨(burst_detector_span burstLogs 0 100 "8.8.8.8" burstState 100 cexGeoFlag).1, by decide⟩

/-- C5: once an IP is blocked, an Escalator run leaves its block entries and
its flags unchanged, and running the Escalator twice in a row equals running
it once on all three stores. -/
theorem escalator_idem (st : State) (now : Int) (ip : String) :
    (blockedHas st ip = true →
      entriesFor (autoBlockState now st) ip = entriesFor st ip ∧
      flagsFor (autoBlockState now st) ip = flagsFor st ip) ∧
    autoBlockState now (autoBlockState now st) = autoBlockState now st := by
  constructor
  · intro hb
    exact escalateLoop_frame_blocked hb
  · have hkeys : (autoBlockState now st).suspicious.map flagKey =
        st.suspicious.map flagKey := escalateLoop_flagKeys
    have hq : qualifyingIps (autoBlockState now st).suspicious now =
        qualifyingIps st.suspicious now := qualifyingIps_congr hkeys
    have hall : ∀ x ∈ qualifyingIps (autoBlockState now st).suspicious now,
        blockedHas (autoBlockState now st) x = true := by
      intro x hm
      rw [hq] at hm
      exact escalateLoop_mem_blocked hm
    show (escalateLoop now (qualifyingIps (autoBlockState now st).suspicious now)
      (autoBlockState now st) 0).1 = autoBlockState now st
    rw [escalateLoop_noop hall]

/-- witness for C5 at a concrete store whose IP is already blocked -/
theorem escalator_idem_witness :
    blockedHas escBlockedState "9.9.9.9" = true ∧
    entriesFor (autoBlockState 2000 escBlockedState) "9.9.9.9" =
      entriesFor escBlockedState "9.9.9.9" ∧
    autoBlockState 2000 (autoBlockState 2000 escBlockedState) =
      autoBlockState 2000 escBlockedState :=
  ⟨by decide, ((escalator_idem escBlockedState 2000 "9.9.9.9").1 (by decide)).1,
    (escalator_idem escBlockedState 2000 "9.9.9.9").2⟩

/-- C6: the Retention Sweeper keeps exactly the flags that are not both
resolved and older than 30 days, preserves them in order, never deletes an
unresolved flag, returns the number of deleted records, and touches neither
the request log nor the block list. -/
theorem cleanup_spec (now : Int) (st : State) (f : SuspiciousIP) :
    ((cleanup_old_suspicious_records now st).1.requestLogs = st.requestLogs ∧
      (cleanup_old_suspicious_records now st).1.blocked = st.blocked) ∧
    (f ∈ (cleanup_old_suspicious_records now st).1.suspicious ↔
      f ∈ st.suspicious ∧ ¬(f.is_resolved = true ∧ f.detected_at < now - 2592000)) ∧
    (f ∈ st.suspicious → f.is_resolved = false →
      f ∈ (cleanup_old_suspicious_records now st).1.suspicious) ∧
    ((cleanup_old_suspicious_records now st).1.suspicious).Sublist st.suspicious ∧
    (cleanup_old_suspicious_records now st).2 =
      st.suspicious.length - (cleanup_old_suspicious_records now st).1.suspicious.length := by
  have hmem : f ∈ (cleanup_old_suspicious_records now st).1.suspicious ↔
      f ∈ st.suspicious ∧ ¬(f.is_resolved = true ∧ f.detected_at < now - 2592000) := by
    show f ∈ st.suspicious.filter (fun g => !isOldResolved now g) ↔ _
    rw [List.mem_filter]
    constructor
    · rintro ⟨hf, hp⟩
      refine ⟨hf, ?_⟩
      rintro ⟨hres, hold⟩
      rw [isOldResolved, hres, decide_eq_true hold] at hp
      exact absurd hp (by decide)
    · rintro ⟨hf, hp⟩
      refine ⟨hf, ?_⟩
      rw [isOldResolved]
      cases hres : f.is_resolved with
      | false => rfl
      | true =>
        rw [decide_eq_false (fun hold => hp ⟨hres, hold⟩)]
        rfl
  refine ⟨⟨rfl, rfl⟩, hmem, ?_, List.filter_sublist _, ?_⟩
  · intro hf hres
    exact hmem.mpr ⟨hf, fun hc => by rw [hres] at hc; exact absurd hc.1 (by decide)⟩
  · have h := List.length_eq_length_filter_add (l := st.suspicious) (isOldResolved now)
    show (st.suspicious.filter (isOldResolved now)).length =
      st.suspicious.length - (st.suspicious.filter (fun g => !isOldResolved now g)).length
    omega

/-- witness for C6 at a concrete store with one old-resolved and one unresolved flag -/
theorem cleanup_spec_witness :
    sweepKeptFlag ∈ sweepState.suspicious ∧
    sweepKeptFlag ∈ (cleanup_old_suspicious_records 3000000 sweepState).1.suspicious ∧
    (cleanup_old_suspicious_records 3000000 sweepState).2 = 1 :=
  ⟨by decide,
    (cleanup_spec 3000000 sweepState sweepKeptFlag).2.2.1 (by decide) (by decide),
    by decide⟩

/-- C8: an IP already in the block list is still flagged by the High-Volume
detector when over threshold and not in cool-down; the detector's output does
not depend on the block list at all; and the Escalator short-circuits a
blocked IP, leaving its block entries and flags unchanged. -/
theorem blocked_ip_detectors (st : State) (startT endT now : Int) (ip : String)
    (b : List BlockedIP) :
    (blockedHas st ip = true → 100 < ipCount st.requestLogs startT endT ip →
      suspExistsRecent st.suspicious ip "High volume" now = false →
      ip ∈ (detect_high_volume_requests st startT endT now).2) ∧
    (detect_high_volume_requests { st with blocked := b } startT endT now).2 =
      (detect_high_volume_requests st startT endT now).2 ∧
    (detect_sensitive_path_access { st with blocked := b } startT endT now).2 =
      (detect_sensitive_path_access st startT endT now).2 ∧
    (detect_pattern_anomalies { st with blocked := b } startT endT now).2 =
      (detect_pattern_anomalies st startT endT now).2 ∧
    (detect_geographic_anomalies { st with blocked := b } startT endT now).2 =
      (detect_geographic_anomalies st startT endT now).2 ∧
    (blockedHas st ip = true →
      entriesFor (autoBlockState now st) ip = entriesFor st ip ∧
      flagsFor (autoBlockState now st) ip = flagsFor st ip) := by
  refine ⟨?_, rfl, rfl, rfl, rfl, ?_⟩
  · intro _ h100 hrec
    exact hv_flagged_iff.mpr ⟨h100, hrec⟩
  · intro hb
    exact escalateLoop_frame_blocked hb

/-- witness for C8 at a concrete store whose high-volume IP is blocked -/
theorem blocked_ip_detectors_witness :
    blockedHas c8State "1.2.3.4" = true ∧
    "1.2.3.4" ∈ (detect_high_volume_requests c8State 0 100 100).2 :=
  ⟨by decide,
    (blocked_ip_detectors c8State 0 100 100 "1.2.3.4" []).1 (by decide) (by decide) (by decide)⟩

/-- C9: the Report Generator returns the state unchanged and the five
statistics over the trailing 24 hours (block-list size all-time). -/
theorem report_pure (now : Int) (st : State) :
    (generate_security_report now st).1 = st ∧
    (generate_security_report now st).2.total_requests_24h =
      (st.requestLogs.filter (fun r => decide (now - 86400 < r.timestamp))).length ∧
    (generate_security_report now st).2.unique_ips_24h =
      (((st.requestLogs.filter (fun r => decide (now - 86400 < r.timestamp))).map
        (fun r => r.ip_address)).dedup).length ∧
    (generate_security_report now st).2.suspicious_flags_24h =
      (st.suspicious.filter (fun g => decide (now - 86400 < g.detected_at))).length ∧
    (generate_security_report now st).2.blocked_ips_total = st.blocked.length ∧
    (generate_security_report now st).2.auto_blocked_24h =
      (st.suspicious.filter
        (fun g => decide (now - 86400 < g.detected_at) && g.auto_blocked)).length :=
  ⟨rfl, rfl, rfl, rfl, rfl, rfl⟩

/-- C10 (amended): the run summary satisfies total_flagged = sum of the four
per-category counts, each per-category count is the number of flags that
detector created in the run (the flag store grows by exactly total_flagged),
and within one run each detector flags an IP at most once — the first created
flag of a category enters the cool-down and suppresses further same-category
candidates of that IP, so distinct paths or countries add no further flags. -/
theorem detection_summary (now : Int) (st : State) :
    ((detect_anomalies now st).2.total_flagged =
      (detect_anomalies now st).2.high_volume_ips +
        (detect_anomalies now st).2.sensitive_path_ips +
        (detect_anomalies now st).2.pattern_anomaly_ips +
        (detect_anomalies now st).2.geo_anomaly_ips) ∧
    (detect_anomalies now st).2.high_volume_ips =
      (hvNewFlags st (now - 3600) now now).length ∧
    (detect_anomalies now st).2.sensitive_path_ips =
      (sensNewFlags (stage1 now st) (now - 3600) now now).length ∧
    (detect_anomalies now st).2.pattern_anomaly_ips =
      (burstNewFlags (stage2 now st) (now - 3600) now now).length ∧
    (detect_anomalies now st).2.geo_anomaly_ips =
      (geoNewFlags (stage3 now st) (now - 3600) now now).length ∧
    (detect_anomalies now st).1.suspicious.length =
      st.suspicious.length + (detect_anomalies now st).2.total_flagged ∧
    ((hvNewFlags st (now - 3600) now now).map (fun f => f.ip_address)).Nodup ∧
    ((sensNewFlags (stage1 now st) (now - 3600) now now).map (fun f => f.ip_address)).Nodup ∧
    ((burstNewFlags (stage2 now st) (now - 3600) now now).map (fun f => f.ip_address)).Nodup ∧
    ((geoNewFlags (stage3 now st) (now - 3600) now now).map (fun f => f.ip_address)).Nodup := by
  have hm1 : (detect_anomalies now st).2.high_volume_ips =
      (hvNewFlags st (now - 3600) now now).length := List.length_map ..
  have hm2 : (detect_anomalies now st).2.sensitive_path_ips =
      (sensNewFlags (stage1 now st) (now - 3600) now now).length := List.length_map ..
  have hm3 : (detect_anomalies now st).2.pattern_anomaly_ips =
      (burstNewFlags (stage2 now st) (now - 3600) now now).length := List.length_map ..
  have hm4 : (detect_anomalies now st).2.geo_anomaly_ips =
      (geoNewFlags (stage3 now st) (now - 3600) now now).length := List.length_map ..
  have e1 : (stage1 now st).suspicious.length =
      st.suspicious.length + (hvNewFlags st (now - 3600) now now).length :=
    List.length_append ..
  have e2 : (stage2 now st).suspicious.length =
      (stage1 now st).suspicious.length +
        (sensNewFlags (stage1 now st) (now - 3600) now now).length :=
    List.length_append ..
  have e3 : (stage3 now st).suspicious.length =
      (stage2 now st).suspicious.length +
        (burstNewFlags (stage2 now st) (now - 3600) now now).length :=
    List.length_append ..
  have e4 : (stage4 now st).suspicious.length =
      (stage3 now st).suspicious.length +
        (geoNewFlags (stage3 now st) (now - 3600) now now).length :=
    List.length_append ..
  have he : (detect_anomalies now st).1.suspicious.length =
      (stage4 now st).suspicious.length := escalateLoop_susp_length
  have ht : (detect_anomalies now st).2.total_flagged =
      (detect_anomalies now st).2.high_volume_ips +
        (detect_anomalies now st).2.sensitive_path_ips +
        (detect_anomalies now st).2.pattern_anomaly_ips +
        (detect_anomalies now st).2.geo_anomaly_ips := rfl
  refine ⟨ht, hm1, hm2, hm3, hm4, by omega, hvNewFlags_ips_nodup, sensNewFlags_ips_nodup,
    burstNewFlags_ips_nodup, geoNewFlags_ips_nodup⟩

/-- counterexample to C10 as stated: one IP crosses the threshold on two
distinct sensitive paths, yet the run records only one Sensitive-Path flag —
the first creation's cool-down suppresses the second path's candidate. -/
theorem detection_summary_cex :
    ("10.0.0.1", "/admin", 6) ∈ sensCandidates twoPathState.requestLogs (100 - 3600) 100 ∧
    ("10.0.0.1", "/login", 6) ∈ sensCandidates twoPathState.requestLogs (100 - 3600) 100 ∧
    ("/admin" : String) ≠ "/login" ∧
    (detect_anomalies 100 twoPathState).2.sensitive_path_ips = 1 ∧
    (detect_anomalies 100 twoPathState).2.total_flagged = 1 :=
  ⟨by decide, by decide, by decide, by decide, by decide⟩

/-- C7 is about the Deduplicator matching categories rather than free text;
the code's substring match is evaluated here at a failing input: a recent
Geo-Anomaly flag (reason starts with the Geo marker, not the High-Volume one)
whose embedded country contains the text of the High-Volume marker suppresses
the High-Volume flag of an IP with 101 in-window events. -/
theorem dedup_cross_category_bug :
    strStartsWith c7GeoFlag.reason (marker Category.geoAnomaly) = true ∧
    strStartsWith c7GeoFlag.reason (marker Category.highVolume) = false ∧
    strContains c7GeoFlag.reason "High volume" = true ∧
    100 < ipCount c7State.requestLogs 100 200 "203.0.113.7" ∧
    (detect_high_volume_requests c7State 100 200 200).2 = [] :=
  ⟨by decide, by decide, by decide, by decide, by decide⟩

end IpTracking
